import Mathlib

/-!
Verification of the VisualClusters pipeline of this repository against its
specification.  The embedding follows the two JavaScript sources:

  * `wwwroot/extensions/BaseExtension.js` — leaf enumeration
    (`findLeafNodes`), promotion of raw-geometry leaves to their parents and
    the extension-level cache (`findActualLeafNodes`);
  * `wwwroot/extensions/VisualClusters/Cluster.js` — cluster building
    (`buildClustersFromAttribute`, `hasVisibleFragments`), the default-layout
    pipeline (`createDefaultLayout`) and the orchestrator's staleness
    machinery (`setLayoutActive`, `applyLayout`).

The host viewer (scene tree, property database, fragment list) is an
external collaborator; it is embedded at its interface boundary as fields of
`SceneModel`.  Asynchronous results are values of `PResult`: a JavaScript
promise is resolved, rejected, or forever pending.
-/

deriving instance DecidableEq for Except

namespace VClusters

/-- ASCII lowering of one character (`String.toLower` is not
kernel-reducible; the geometry markers compared against are ASCII). -/
def lowerChar (c : Char) : Char :=
  if 65 ≤ c.toNat ∧ c.toNat ≤ 90 then Char.ofNat (c.toNat + 32) else c

/-- ASCII `toLowerCase()`. -/
def lowerAscii (s : String) : String := ⟨s.data.map lowerChar⟩

/-- The decimal digit character of `n % 10`. -/
def digitChar (n : Nat) : Char := Char.ofNat (48 + n % 10)

/-- Decimal digits of `n`, fuelled by the first argument (any fuel above the
digit count yields the full representation). -/
def natDecimalAux : Nat → Nat → List Char
  | 0, _ => []
  | fuel+1, n =>
    if n < 10 then [digitChar n]
    else natDecimalAux fuel (n / 10) ++ [digitChar (n % 10)]

/-- JavaScript `Number.prototype.toString()` for integers (kernel-reducible
replacement for `toString : Int → String`). -/
def decimalRepr (i : Int) : String :=
  match i with
  | .ofNat n => ⟨natDecimalAux (n+1) n⟩
  | .negSucc m => ⟨'-' :: natDecimalAux (m+2) (m+1)⟩

/-- A JavaScript value as it flows through the property database and the
id lists of the extension: a number, a string, or `null`/`undefined`. -/
inductive JSVal where
  | jnum (n : Int)
  | jstr (s : String)
  | jnull
deriving DecidableEq

/-- JavaScript truthiness: `undefined`/`null`, `0` and `""` are falsy. -/
def JSVal.truthy : JSVal → Bool
  | .jnum n => n != 0
  | .jstr s => s != ""
  | .jnull => false

/-- `v?.toString().toLowerCase()` — `none` models the optional chain
short-circuiting on `undefined`/`null`. -/
def JSVal.toLowerString : JSVal → Option String
  | .jnum n => some (decimalRepr n)
  | .jstr s => some (lowerAscii s)
  | .jnull => none

/-- String coercion applied when a value is used as an object key
(`clustersByName[category]`). -/
def JSVal.asKey : JSVal → String
  | .jnum n => decimalRepr n
  | .jstr s => s
  | .jnull => "undefined"

/-- One entry of a property record, as returned by the host's bulk
property queries (`displayName`/`displayValue`). -/
structure PropEntry where
  displayName : String
  displayValue : JSVal
deriving DecidableEq

/-- One element of a bulk-property result: the element's id, its `name`
field (a string when present) and its property list. -/
structure PropRecord where
  dbId : JSVal
  name : Option String
  properties : List PropEntry
deriving DecidableEq

/-- Failure of an asynchronous step: the host invoked the error callback of
a bulk query, or a `TypeError` was thrown while processing its results. -/
inductive QErr where
  | queryError
  | typeError
deriving DecidableEq

/-- Visibility data of one fragment: `fragList.isNotLoaded` and
`fragList.isFragVisible` of the host. -/
structure Frag where
  notLoaded : Bool
  visible : Bool
deriving DecidableEq

/-- One loaded scene source, embedded at the host-interface boundary.
`nodes` is the recursive `enumNodeChildren` enumeration from the root,
`childCount`/`desc` the instance-tree accessors, `frags` the fragment list,
`queryBulk` the host's `getBulkProperties` (full records, `{}` options),
`attrOf` the display value an element carries for a named attribute
(`none` = the element lacks the attribute), and `attrFail` whether the
host's `getBulkProperties2` worker query for that attribute errors. -/
structure SceneModel where
  id : Int := 0
  is3d : Bool := true
  hasInstanceTree : Bool := true
  nodes : List JSVal := []
  childCount : JSVal → Nat := fun _ => 0
  desc : JSVal → List JSVal := fun _ => []
  frags : JSVal → List Frag := fun _ => []
  queryBulk : List JSVal → Except QErr (List PropRecord) := fun _ => .ok []
  attrOf : String → JSVal → Option JSVal := fun _ _ => none
  attrFail : String → Bool := fun _ => false

/-- Mutable state of the `BaseExtension` instance: the single, source-blind
cache slot `this.cachedDbIds` (BaseExtension.js line 7). -/
structure ExtState where
  cachedDbIds : Option (List JSVal)
deriving DecidableEq

/-- `this.geometryNames` (BaseExtension.js line 8). -/
def geometryNames : List String := ["mesh", "body"]

/-- `findLeafNodes` (BaseExtension.js lines 32-45): every enumerated node
with zero children. -/
def findLeafNodes (m : SceneModel) : List JSVal :=
  m.nodes.filter fun d => m.childCount d == 0

/-- Whether some property's display value matches the geometry-marker set
(the `hasGeometryProperty` test, BaseExtension.js lines 168-172). -/
def recordHasGeometryValue (r : PropRecord) : Bool :=
  r.properties.any fun p =>
    match p.displayValue.toLowerString with
    | some s => geometryNames.contains s
    | none => false

/-- Whether the record's `name` matches the geometry-marker set
(BaseExtension.js lines 173-174). -/
def recordNameIsGeometry (r : PropRecord) : Bool :=
  match r.name with
  | some s => geometryNames.contains (lowerAscii s)
  | none => false

/-- The guard of the parent-promotion branch:
`hasGeometryProperty || (name && geometryNames.includes(name.toLowerCase()))`. -/
def recordIsGeometry (r : PropRecord) : Bool :=
  recordHasGeometryValue r || recordNameIsGeometry r

/-- `prop.properties.find(subProp => subProp.displayName === "parent")`
(BaseExtension.js lines 175-177). -/
def parentEntry (r : PropRecord) : Option PropEntry :=
  r.properties.find? fun p => p.displayName == "parent"

/-- One step of the `results.flat().forEach` loop of `findActualLeafNodes`
(BaseExtension.js lines 168-186): which id the record contributes.  When the
geometry guard holds but no "parent" property exists, `find` yields
`undefined` and reading `.displayValue` from it throws a `TypeError`, which
the surrounding `try` turns into a rejection: `.error .typeError`. -/
def processRecord (r : PropRecord) : Except QErr JSVal :=
  if recordIsGeometry r then
    match parentEntry r with
    | none => .error .typeError
    | some dp => if dp.displayValue.truthy then .ok dp.displayValue else .ok r.dbId
  else
    .ok r.dbId

/-- `[...new Set(dbIds)]` (BaseExtension.js line 215): deduplicate, keeping
first occurrences in order. -/
def jsUniq (l : List JSVal) : List JSVal :=
  l.foldl (fun acc x => if acc.contains x then acc else acc ++ [x]) []

/-- The chunked parallel bulk query (BaseExtension.js lines 152-165), or the
single query of the non-parallel branch (lines 188-191).  `Promise.all`
rejects as soon as one chunk's query rejects; on success the records are the
flattened chunk results. -/
def bulkRecords (m : SceneModel) (useParallel : Bool) (allDbIds : List JSVal) :
    Except QErr (List PropRecord) :=
  if useParallel then
    match (List.toChunks 1000 allDbIds).mapM m.queryBulk with
    | .error e => .error e
    | .ok results => .ok results.flatten
  else
    m.queryBulk allDbIds

/-- The computing path of `findActualLeafNodes` (BaseExtension.js lines
147-215): enumerate leaves, bulk-query their records, promote geometry
leaves, deduplicate. -/
def computeActualLeafNodes (m : SceneModel) (useParallel : Bool) :
    Except QErr (List JSVal) :=
  match bulkRecords m useParallel (findLeafNodes m) with
  | .error e => .error e
  | .ok records =>
    match records.mapM processRecord with
    | .error e => .error e
    | .ok pushed => .ok (jsUniq pushed)

/-- `findActualLeafNodes` (BaseExtension.js lines 128-227).  The cache check
(lines 142-145) consults the single `cachedDbIds` slot — it is not keyed by
the model passed in.  On success with `useCache` the result is stored back
(lines 217-220); a rejection leaves the cache untouched. -/
def findActualLeafNodes (ext : ExtState) (m : SceneModel)
    (useCache : Bool) (useParallel : Bool) :
    Except QErr (List JSVal) × ExtState :=
  match useCache, ext.cachedDbIds with
  | true, some cached => (.ok cached, ext)
  | _, _ =>
    match computeActualLeafNodes m useParallel with
    | .error e => (.error e, ext)
    | .ok dbIds => (.ok dbIds, if useCache then { cachedDbIds := some dbIds } else ext)

/-- `createShapeId` (Cluster.js lines 34-39): one object within a
multi-model scene. -/
structure ShapeId where
  modelId : Int
  dbId : JSVal
deriving DecidableEq

/-- A `Cluster` (Cluster.js lines 42-52): a named group of shape ids.  The
name is the raw attribute display value stored by `new Cluster(category)`. -/
structure Cluster where
  name : JSVal
  shapeIds : List ShapeId
deriving DecidableEq

/-- The early-exit `enumNodeFragments` loop of `hasVisibleFragments`
(Cluster.js lines 61-76): `allHidden` stays true until a fragment that is
neither skipped nor hidden is found, at which point traversal stops. -/
def allFragsHidden : List Frag → Bool
  | [] => true
  | f :: rest => if !f.notLoaded && f.visible then false else allFragsHidden rest

/-- `hasVisibleFragments` (Cluster.js lines 55-78). -/
def hasVisibleFragments (m : SceneModel) (dbId : JSVal) : Bool :=
  !(allFragsHidden (m.frags dbId))

/-- One item of a `getBulkProperties2` result under
`propFilter: [attribName]`: the element's id and the attribute's display
value (read by `item.properties[0].displayValue`, Cluster.js line 152). -/
structure BulkItem where
  dbId : JSVal
  catValue : JSVal
deriving DecidableEq

/-- Host behaviour of `getBulkProperties2(dbIds, { propFilter: [attribName] })`
(Cluster.js lines 136-139, 176): one item per requested id that carries the
attribute; ids lacking the attribute are omitted from the result. -/
def bulkItems (m : SceneModel) (attribName : String) (dbIds : List JSVal) :
    List BulkItem :=
  dbIds.filterMap fun d => (m.attrOf attribName d).map fun v => ⟨d, v⟩

/-- The shape ids one result item contributes to its cluster (Cluster.js
lines 161-171): with `searchAncestors` the visible recursive children of the
item's element, otherwise the element itself. -/
def freshShapes (m : SceneModel) (searchAncestors : Bool) (it : BulkItem) :
    List ShapeId :=
  if searchAncestors then
    ((m.desc it.dbId).filter fun c => hasVisibleFragments m c).map fun c =>
      ⟨m.id, c⟩
  else
    [⟨m.id, it.dbId⟩]

/-- Get-or-create on `clustersByName` followed by appending shape ids
(Cluster.js lines 154-171): the map is an insertion-ordered association
list keyed by the stringified category. -/
def addShapes : List (String × Cluster) → String → JSVal → List ShapeId →
    List (String × Cluster)
  | [], key, nm, fresh => [(key, ⟨nm, fresh⟩)]
  | (k, c) :: rest, key, nm, fresh =>
    if k = key then (k, ⟨c.name, c.shapeIds ++ fresh⟩) :: rest
    else (k, c) :: addShapes rest key nm fresh

/-- Processing of one result item by the `onDone` callback (Cluster.js
lines 146-172). -/
def addToClusters (m : SceneModel) (searchAncestors : Bool)
    (acc : List (String × Cluster)) (it : BulkItem) : List (String × Cluster) :=
  addShapes acc it.catValue.asKey it.catValue (freshShapes m searchAncestors it)

/-- Outcome of a JavaScript promise: resolved, rejected, or never settled. -/
inductive PResult (α : Type) where
  | resolved (a : α)
  | rejected (e : QErr)
  | pending
deriving DecidableEq

/-- The per-model loop of `buildClustersFromAttribute` (Cluster.js lines
109-185), followed by the `Promise.all` join.  Each iteration awaits
`context.findActualLeafNodes(model)` (line 133, default arguments, cache
state threading through), then fires `getBulkProperties2` inside a promise
whose executor passes no error callback (line 176): when that query fails,
neither `resolve` nor `reject` ever runs and the promise stays pending, so
the join never settles.  On success the `onDone` callback folds the items
into `clustersByName`; the model loop order fixes one deterministic
interleaving of the callbacks. -/
def buildLoop (attribName : String) (searchAncestors : Bool) :
    List SceneModel → ExtState → List (String × Cluster) → Bool →
    PResult (List Cluster) × ExtState
  | [], ext, acc, somePending =>
    ((if somePending then .pending else .resolved (acc.map Prod.snd)), ext)
  | m :: rest, ext, acc, somePending =>
    match findActualLeafNodes ext m true true with
    | (.error e, ext1) => (.rejected e, ext1)
    | (.ok dbIds, ext1) =>
      if m.attrFail attribName then
        buildLoop attribName searchAncestors rest ext1 acc true
      else
        buildLoop attribName searchAncestors rest ext1
          ((bulkItems m attribName dbIds).foldl (addToClusters m searchAncestors) acc)
          somePending

/-- `buildClustersFromAttribute` (Cluster.js lines 101-186), resolving to
`Object.values(clustersByName)`. -/
def buildClustersFromAttribute (models : List SceneModel) (attribName : String)
    (searchAncestors : Bool) (ctx : ExtState) : PResult (List Cluster) × ExtState :=
  buildLoop attribName searchAncestors models ctx [] false

/-- JavaScript loose inequality `v != s` for the non-numeric string literals
of the cluster exclusion filter: a string compares by string equality; a
number or `null`/`undefined` is never loosely equal to these strings, so
`!=` is true for them. -/
def jsNeqStr (v : JSVal) (s : String) : Bool :=
  match v with
  | .jstr t => t != s
  | _ => true

/-- The exclusion filter of `createDefaultLayout` (Cluster.js line 268). -/
def clusterNameOk (v : JSVal) : Bool :=
  jsNeqStr v "Revit Topography" && jsNeqStr v "Revit Rooms" &&
    jsNeqStr v "Revit <Sketch>"

/-- `model.is3d() && Boolean(model.getInstanceTree())` (Cluster.js line 261). -/
def modelSupported (m : SceneModel) : Bool :=
  m.is3d && m.hasInstanceTree

/-- `createDefaultLayout` (Cluster.js lines 258-279).  `RowLayoutBuilder.js`
(`createClusterSetLayout`), `ShapeBoxes.js` and `RotationAlignment.js` are
not among the provided sources, so the layout computation is a parameter
`createClusterSetLayout`, fed the filtered clusters, the supported models
(from which boxes and the optional rotation alignment are derived) and the
`alignShapeRotation` flag.  A rejected or pending cluster build propagates
unchanged through the `await`. -/
def createDefaultLayout {α : Type}
    (createClusterSetLayout : List Cluster → List SceneModel → Bool → α)
    (models : List SceneModel) (alignShapeRotation : Bool) (attribName : String)
    (searchAncestors : Bool) (ctx : ExtState) : PResult α × ExtState :=
  match buildClustersFromAttribute (models.filter modelSupported) attribName
      searchAncestors ctx with
  | (.resolved cs, ext1) =>
    (.resolved (createClusterSetLayout (cs.filter fun c => clusterNameOk c.name)
      (models.filter modelSupported) alignShapeRotation), ext1)
  | (.rejected e, ext1) => (.rejected e, ext1)
  | (.pending, ext1) => (.pending, ext1)

/-- Modelled from the spec: `createClusterSetLayout` (RowLayoutBuilder.js)
and `createSceneState` (AnimState.js) are not among the provided sources; a
computed scene layout is represented opaquely by the clusters it was
computed from, which is all the orchestrator's control flow inspects. -/
structure SceneLayoutData where
  clusters : List Cluster
deriving DecidableEq

/-- `ClusteredStateName` (Cluster.js line 242). -/
def ClusteredStateName : String := "ByCategory"

/-- `animController.registerState(name, state)`: store or overwrite one
named animation state in the controller's registry. -/
def registerState : List (String × SceneLayoutData) → String → SceneLayoutData →
    List (String × SceneLayoutData)
  | [], nm, st => [(nm, st)]
  | (k, s0) :: rest, nm, st =>
    if k = nm then (nm, st) :: rest else (k, s0) :: registerState rest nm st

/-- Observable calls the orchestrator makes, in order: the toolbar update,
the TRANSITION_STARTED event (`onTransitionStarted`), registering an
animation state, starting an animation (`animController.animateTo`; `none`
targets the original pose), and the gizmo layout change. -/
inductive UIEffect where
  | updateButton
  | transitionStarted
  | registerClusteredState
  | animateTo (target : Option String)
  | gizmoChanged (hasLayout : Bool)
deriving DecidableEq

/-- Mutable state of the `VisualClustersExtension` instance that the
layout/animation control flow touches (Cluster.js lines 304-338, 552-613):
the toggle flag, the run counter, the stored layout and animation state,
the animation controller's state registry and its current target. -/
structure VCState where
  layoutActive : Bool
  layoutTimeStamp : Nat
  sceneLayout : Option SceneLayoutData
  sceneAnimState : Option SceneLayoutData
  animStates : List (String × SceneLayoutData)
  animTarget : Option (Option String)
deriving DecidableEq

/-- Synchronous prefix of `applyLayout` (Cluster.js lines 573-582), up to
the `await` of the layout computation: bump the run counter and capture it
(`const layoutTimeStamp = this.layoutTimeStamp`). -/
def applyLayoutStart (s : VCState) : VCState × Nat :=
  let s1 := { s with layoutTimeStamp := s.layoutTimeStamp + 1 }
  (s1, s1.layoutTimeStamp)

/-- Continuation of `applyLayout` after the layout computation resolves
(Cluster.js lines 595-613): the staleness check
`if (!this.layoutActive || layoutTimeStamp !== this.layoutTimeStamp) return;`
and, when the result is still wanted, the layout/animation updates.
`layoutTimeStamp` is the captured counter value, `s` the extension state at
resolution time, `sceneLayout` the resolved layout. -/
def applyLayoutResume (s : VCState) (layoutTimeStamp : Nat)
    (sceneLayout : SceneLayoutData) : VCState × List UIEffect :=
  if !s.layoutActive || layoutTimeStamp != s.layoutTimeStamp then
    (s, [])
  else
    ({ s with
        sceneLayout := some sceneLayout,
        sceneAnimState := some sceneLayout,
        animStates := registerState s.animStates ClusteredStateName sceneLayout,
        animTarget := some (some ClusteredStateName) },
      [.registerClusteredState, .transitionStarted,
        .animateTo (some ClusteredStateName), .gizmoChanged true])

/-- `setLayoutActive` (Cluster.js lines 552-571): the unchanged guard, the
flag update and button refresh, then either the animation back to the
original state or the start of `applyLayout` (whose asynchronous remainder
is `applyLayoutResume`).  `this.customSceneLayout` is never assigned in this
repository, so the awaited `createDefaultLayout` branch is the one taken. -/
def setLayoutActive (s : VCState) (active : Bool) : VCState × List UIEffect :=
  if s.layoutActive == active then
    (s, [])
  else
    let s1 := { s with layoutActive := active }
    if !active then
      ({ s1 with animTarget := some none },
        [.updateButton, .transitionStarted, .animateTo none, .gizmoChanged false])
    else
      ((applyLayoutStart s1).1, [.updateButton])

/-- All shape ids over a list of clusters, in cluster order. -/
def clusterShapes (cs : List Cluster) : List ShapeId :=
  (cs.map Cluster.shapeIds).flatten

/-- All shape ids stored in the `clustersByName` association list. -/
def accShapes (acc : List (String × Cluster)) : List ShapeId :=
  (acc.map fun p => p.2.shapeIds).flatten

/-! Concrete inputs used by witnesses and counterexamples. -/

/-- A fresh extension state: `this.cachedDbIds = null`. -/
def ctx0 : ExtState := ⟨none⟩

/-- Extension state as after a call that cached the leaf list `[1]`. -/
def extA : ExtState := ⟨some [JSVal.jnum 1]⟩

/-- A source whose only leaf is element 1, an ordinary object named "Door". -/
def modelA : SceneModel :=
  { id := 1, nodes := [JSVal.jnum 1],
    queryBulk := fun ids => .ok (ids.map fun d => ⟨d, some "Door", []⟩) }

/-- A different source whose only leaf is element 20, named "Wall". -/
def modelB : SceneModel :=
  { id := 2, nodes := [JSVal.jnum 20],
    queryBulk := fun ids => .ok (ids.map fun d => ⟨d, some "Wall", []⟩) }

/-- A source whose only leaf, element 7, is flagged "mesh" and records
parent 42. -/
def modelMesh : SceneModel :=
  { id := 1, nodes := [JSVal.jnum 7],
    queryBulk := fun ids =>
      .ok (ids.map fun d => ⟨d, some "mesh", [⟨"parent", JSVal.jnum 42⟩]⟩) }

/-- The bulk-property record of `modelMesh`'s leaf. -/
def recMesh : PropRecord :=
  ⟨JSVal.jnum 7, some "mesh", [⟨"parent", JSVal.jnum 42⟩]⟩

/-- A source whose only leaf, element 7, is flagged "mesh" but carries no
"parent" property at all. -/
def modelMeshNoParent : SceneModel :=
  { id := 1, nodes := [JSVal.jnum 7],
    queryBulk := fun ids => .ok (ids.map fun d => ⟨d, some "mesh", []⟩) }

/-- The bulk-property record of `modelMeshNoParent`'s leaf. -/
def recMeshNoParent : PropRecord := ⟨JSVal.jnum 7, some "mesh", []⟩

/-- A record flagged "mesh" whose "parent" property is present but falsy. -/
def recMeshFalsyParent : PropRecord :=
  ⟨JSVal.jnum 7, some "mesh", [⟨"parent", JSVal.jnum 0⟩]⟩

/-- A source whose leaf-resolution bulk query rejects. -/
def modelLeafFail : SceneModel :=
  { id := 3, nodes := [JSVal.jnum 1], queryBulk := fun _ => .error .queryError }

/-- A source whose leaf resolution succeeds but whose attribute query
(`getBulkProperties2` with the prop filter) errors. -/
def modelAttrFail : SceneModel :=
  { id := 3, nodes := [JSVal.jnum 1],
    queryBulk := fun ids => .ok (ids.map fun d => ⟨d, some "Door", []⟩),
    attrFail := fun _ => true }

/-- A source where leaf 2 is a "mesh" promoted to its parent 1, parent 1
carries the attribute value "Walls", and 1's only visible descendant is 2. -/
def modelExpand : SceneModel :=
  { id := 4,
    nodes := [JSVal.jnum 1, JSVal.jnum 2],
    childCount := fun d => if d = JSVal.jnum 1 then 1 else 0,
    desc := fun d => if d = JSVal.jnum 1 then [JSVal.jnum 2] else [],
    frags := fun d => if d = JSVal.jnum 2 then [⟨false, true⟩] else [],
    queryBulk := fun ids =>
      .ok (ids.map fun d => ⟨d, some "mesh", [⟨"parent", JSVal.jnum 1⟩]⟩),
    attrOf := fun _ d => if d = JSVal.jnum 1 then some (JSVal.jstr "Walls") else none }

/-- A source with two plain leaves where element 1 carries the attribute
value "Doors" and element 2 lacks the attribute. -/
def modelHalfAttr : SceneModel :=
  { id := 5,
    nodes := [JSVal.jnum 1, JSVal.jnum 2],
    queryBulk := fun ids => .ok (ids.map fun d => ⟨d, some "Door", []⟩),
    attrOf := fun _ d => if d = JSVal.jnum 1 then some (JSVal.jstr "Doors") else none }

/-- A source with two plain leaves carrying attribute values "Doors" and
"Windows". -/
def modelTwoOk : SceneModel :=
  { id := 6,
    nodes := [JSVal.jnum 1, JSVal.jnum 2],
    queryBulk := fun ids => .ok (ids.map fun d => ⟨d, some "Door", []⟩),
    attrOf := fun _ d =>
      if d = JSVal.jnum 1 then some (JSVal.jstr "Doors")
      else some (JSVal.jstr "Windows") }

/-- A layout builder standing in for `createClusterSetLayout` that records
the clusters it receives. -/
def passBuilder : List Cluster → List SceneModel → Bool → List Cluster :=
  fun cs _ _ => cs

/-- Orchestrator state mid-run: layout active, run counter already advanced
to 2 by a newer trigger. -/
def stateStale : VCState :=
  { layoutActive := true, layoutTimeStamp := 2, sceneLayout := none,
    sceneAnimState := none, animStates := [], animTarget := none }

/-- Orchestrator state at rest. -/
def stateIdle : VCState :=
  { layoutActive := false, layoutTimeStamp := 0, sceneLayout := none,
    sceneAnimState := none, animStates := [], animTarget := none }

/-- An arbitrary resolved layout. -/
def layoutZero : SceneLayoutData := ⟨[]⟩

/-- C1: when the asynchronous layout computation of `applyLayout` resolves
after a newer trigger advanced the run counter, or after `layoutActive` has
become false, the result is discarded with no observable mutation — the
extension state is unchanged (no scene layout stored, no animation state
registered) and no call is made (no animation started); conversely a
resolution that does anything at all was the most recent trigger's, with
the layout still active. -/
theorem applyLayout_stale_result_discarded (s : VCState) (ts : Nat)
    (L : SceneLayoutData) :
    ((ts < s.layoutTimeStamp ∨ s.layoutActive = false) →
      applyLayoutResume s ts L = (s, [])) ∧
    (applyLayoutResume s ts L ≠ (s, []) →
      ts = s.layoutTimeStamp ∧ s.layoutActive = true) := by
  constructor
  · intro h
    have hcond : (!s.layoutActive || ts != s.layoutTimeStamp) = true := by
      rcases h with h | h
      · simp [Nat.ne_of_lt h]
      · simp [h]
    simp [applyLayoutResume, hcond]
  · intro hne
    cases hA : s.layoutActive with
    | false => exact absurd (by simp [applyLayoutResume, hA]) hne
    | true =>
      by_cases hT : ts = s.layoutTimeStamp
      · exact ⟨hT, rfl⟩
      · exact absurd (by simp [applyLayoutResume, hT]) hne

/-- Witness for C1: a resolution captured at counter value 1 arriving while
the counter stands at 2 leaves the state untouched and performs no call. -/
theorem applyLayout_stale_result_discarded_witness :
    applyLayoutResume stateStale 1 layoutZero = (stateStale, []) :=
  (applyLayout_stale_result_discarded stateStale 1 layoutZero).1
    (Or.inl (by decide))

/-- C8: `setLayoutActive v` when `layoutActive` already equals `v` returns
before doing anything — no state change, no layout computation, no
animation; in particular the second of two immediate calls with the same
value is a no-op. -/
theorem setLayoutActive_unchanged_noop (s : VCState) (v : Bool) :
    (s.layoutActive = v → setLayoutActive s v = (s, [])) ∧
    setLayoutActive (setLayoutActive s v).1 v = ((setLayoutActive s v).1, []) := by
  have hbase : ∀ t : VCState, t.layoutActive = v → setLayoutActive t v = (t, []) := by
    intro t ht
    simp [setLayoutActive, ht]
  refine ⟨hbase s, hbase _ ?_⟩
  cases hs : s.layoutActive <;> cases hv : v <;>
    simp [setLayoutActive, hs, hv, applyLayoutStart]

/-- Witness for C8: a second deactivation of an already-idle orchestrator
changes nothing and performs no call. -/
theorem setLayoutActive_unchanged_noop_witness :
    setLayoutActive stateIdle false = (stateIdle, []) :=
  (setLayoutActive_unchanged_noop stateIdle false).1 rfl

/-- C5 (amended): the leaf-resolution cache is a single extension-wide slot,
not keyed by source: once `cachedDbIds` is filled, a call with `useCache`
returns the cached list as-is whatever source is passed — the same source or
a different one. -/
theorem cachedDbIds_returned_for_any_source (ext : ExtState) (m : SceneModel)
    (l : List JSVal) (p : Bool) (h : ext.cachedDbIds = some l) :
    findActualLeafNodes ext m true p = (.ok l, ext) := by
  simp [findActualLeafNodes, h]

/-- Witness for C5: with the list `[1]` cached, resolving the unrelated
source `modelB` returns `[1]` unchanged. -/
theorem cachedDbIds_returned_for_any_source_witness :
    findActualLeafNodes extA modelB true true = (.ok [JSVal.jnum 1], extA) :=
  cachedDbIds_returned_for_any_source extA modelB [JSVal.jnum 1] true rfl

/-- Counterexample for C5: source `modelA` caches `[1]`; a later call for
the different source `modelB` receives `modelA`'s cached `[1]`, although
`modelB`'s own resolution yields `[20]`. -/
theorem cachedDbIds_not_per_source_cex :
    findActualLeafNodes ctx0 modelA true true =
      (.ok [JSVal.jnum 1], ⟨some [JSVal.jnum 1]⟩) ∧
    findActualLeafNodes ⟨some [JSVal.jnum 1]⟩ modelB true true =
      (.ok [JSVal.jnum 1], ⟨some [JSVal.jnum 1]⟩) ∧
    findActualLeafNodes ctx0 modelB true true =
      (.ok [JSVal.jnum 20], ⟨some [JSVal.jnum 20]⟩) :=
  ⟨by decide, by decide, by decide⟩

/-- C6: a leaf record matching the geometry-marker set (by a property value
or by name) whose "parent" property holds a truthy value contributes that
parent value in place of its own id; a record not matching the markers keeps
its own id; end to end, the source whose single leaf 7 is flagged "mesh"
with parent 42 resolves to the leaf set `[42]`. -/
theorem geometry_leaf_promoted_to_parent (r : PropRecord) (dp : PropEntry) :
    (recordIsGeometry r = true → parentEntry r = some dp →
      dp.displayValue.truthy = true → processRecord r = .ok dp.displayValue) ∧
    (recordIsGeometry r = false → processRecord r = .ok r.dbId) ∧
    findActualLeafNodes ctx0 modelMesh true true =
      (.ok [JSVal.jnum 42], ⟨some [JSVal.jnum 42]⟩) := by
  refine ⟨?_, ?_, by decide⟩
  · intro h1 h2 h3
    simp [processRecord, h1, h2, h3]
  · intro h1
    simp [processRecord, h1]

/-- Witness for C6: the "mesh" record with parent 42 contributes 42. -/
theorem geometry_leaf_promoted_to_parent_witness :
    processRecord recMesh = .ok (JSVal.jnum 42) :=
  (geometry_leaf_promoted_to_parent recMesh ⟨"parent", JSVal.jnum 42⟩).1
    (by decide) (by decide) (by decide)

/-- C7 (amended): when the geometry marker matches but the "parent" property
is absent, the record processing throws (`find` yields `undefined` and
`.displayValue` is read from it), so the whole resolution rejects with a
TypeError; the silent fallback to the leaf's own id happens only when the
"parent" property is present with a falsy value. -/
theorem missing_parent_property_rejects (r : PropRecord) (dp : PropEntry) :
    (recordIsGeometry r = true → parentEntry r = none →
      processRecord r = .error .typeError) ∧
    (recordIsGeometry r = true → parentEntry r = some dp →
      dp.displayValue.truthy = false → processRecord r = .ok r.dbId) ∧
    findActualLeafNodes ctx0 modelMeshNoParent true true =
      (.error .typeError, ctx0) := by
  refine ⟨?_, ?_, by decide⟩
  · intro h1 h2
    simp [processRecord, h1, h2]
  · intro h1 h2 h3
    simp [processRecord, h1, h2, h3]

/-- Witness for C7's amended statement: the "mesh" record with no "parent"
property makes processing reject with a TypeError. -/
theorem missing_parent_property_rejects_witness :
    processRecord recMeshNoParent = .error .typeError :=
  (missing_parent_property_rejects recMeshNoParent ⟨"parent", JSVal.jnull⟩).1
    (by decide) (by decide)

/-- Counterexample for C7: resolving the source whose "mesh" leaf lacks a
"parent" property does not fall back to the leaf's own id — the resolution
rejects with a TypeError. -/
theorem missing_parent_property_rejects_cex :
    findActualLeafNodes ctx0 modelMeshNoParent true true =
      (.error .typeError, ctx0) ∧
    processRecord recMeshNoParent ≠ .ok (JSVal.jnum 7) := by
  exact ⟨by decide, by decide⟩

theorem accShapes_nil : accShapes [] = [] := rfl

theorem accShapes_cons (p : String × Cluster) (l : List (String × Cluster)) :
    accShapes (p :: l) = p.2.shapeIds ++ accShapes l := by
  simp [accShapes]

theorem clusterShapes_map_snd (acc : List (String × Cluster)) :
    clusterShapes (acc.map Prod.snd) = accShapes acc := by
  simp only [clusterShapes, accShapes, List.map_map]
  rfl

/-- Inserting fresh shape ids into the association list permutes the total
shape-id pool: it equals the old pool with the fresh ids appended. -/
theorem accShapes_addShapes_perm (acc : List (String × Cluster)) (key : String)
    (nm : JSVal) (fresh : List ShapeId) :
    List.Perm (accShapes (addShapes acc key nm fresh)) (accShapes acc ++ fresh) := by
  induction acc with
  | nil => simp [addShapes, accShapes]
  | cons p rest ih =>
    obtain ⟨k, c⟩ := p
    by_cases hk : k = key
    · simp only [addShapes, if_pos hk, accShapes_cons]
      have hgoal : List.Perm (c.shapeIds ++ (fresh ++ accShapes rest))
          (c.shapeIds ++ (accShapes rest ++ fresh)) :=
        List.Perm.append_left _ List.perm_append_comm
      simpa [List.append_assoc] using hgoal
    · simp only [addShapes, if_neg hk, accShapes_cons]
      have hgoal := List.Perm.append_left c.shapeIds ih
      simpa [List.append_assoc] using hgoal

/-- Folding a batch of result items into the association list appends, up to
permutation, exactly the fresh shape ids each item contributes. -/
theorem accShapes_foldl_perm (m : SceneModel) (sa : Bool) (items : List BulkItem) :
    ∀ acc : List (String × Cluster),
      List.Perm (accShapes (items.foldl (addToClusters m sa) acc))
        (accShapes acc ++ (items.map (freshShapes m sa)).flatten) := by
  induction items with
  | nil => intro acc; simp
  | cons it rest ih =>
    intro acc
    have h1 := ih (addToClusters m sa acc it)
    have h2 := accShapes_addShapes_perm acc it.catValue.asKey it.catValue
      (freshShapes m sa it)
    have h3 := (h1.trans (List.Perm.append_right _ h2))
    simpa [List.foldl_cons, List.map_cons, List.flatten_cons, List.append_assoc,
      addToClusters] using h3

/-- Every shape id an item contributes carries the id of the model whose
query produced it. -/
theorem freshShapes_modelId (m : SceneModel) (sa : Bool) (it : BulkItem)
    (sid : ShapeId) (h : sid ∈ freshShapes m sa it) : sid.modelId = m.id := by
  cases sa with
  | true =>
    simp [freshShapes] at h
    obtain ⟨c, hc, rfl⟩ := h
    rfl
  | false =>
    simp [freshShapes] at h
    subst h
    rfl

/-- With `searchAncestors`, every contributed shape id passed the
`hasVisibleFragments` filter. -/
theorem freshShapes_visible (m : SceneModel) (it : BulkItem) (sid : ShapeId)
    (h : sid ∈ freshShapes m true it) : hasVisibleFragments m sid.dbId = true := by
  simp [freshShapes] at h
  obtain ⟨c, ⟨hc, hvis⟩, rfl⟩ := h
  exact hvis

/-- Provenance of the shapes of a resolved build: every shape id in the
output clusters was already in the accumulator or was contributed by some
model of the list. -/
theorem buildLoop_resolved_shapes (a : String) (sa : Bool) :
    ∀ (models : List SceneModel) (ext : ExtState) (acc : List (String × Cluster))
      (pend : Bool) (cs : List Cluster) (ext2 : ExtState),
      buildLoop a sa models ext acc pend = (.resolved cs, ext2) →
      ∀ sid ∈ clusterShapes cs,
        sid ∈ accShapes acc ∨
          ∃ m ∈ models, ∃ it : BulkItem, sid ∈ freshShapes m sa it := by
  intro models
  induction models with
  | nil =>
    intro ext acc pend cs ext2 h sid hsid
    cases pend with
    | true => simp [buildLoop] at h
    | false =>
      simp [buildLoop] at h
      obtain ⟨hcs, -⟩ := h
      subst hcs
      exact Or.inl (clusterShapes_map_snd acc ▸ hsid)
  | cons m rest ih =>
    intro ext acc pend cs ext2 h sid hsid
    rw [buildLoop] at h
    split at h
    next e ext1 heq => exact absurd h (by simp)
    next dbIds ext1 heq =>
      by_cases hb : m.attrFail a
      · rw [if_pos hb] at h
        rcases ih ext1 acc true cs ext2 h sid hsid with hl | ⟨mm, hmm, it, hit⟩
        · exact Or.inl hl
        · exact Or.inr ⟨mm, List.mem_cons_of_mem _ hmm, it, hit⟩
      · rw [if_neg hb] at h
        rcases ih ext1 _ pend cs ext2 h sid hsid with hl | ⟨mm, hmm, it, hit⟩
        · have hperm := accShapes_foldl_perm m sa (bulkItems m a dbIds) acc
          rcases List.mem_append.mp (hperm.mem_iff.mp hl) with h1 | h2
          · exact Or.inl h1
          · obtain ⟨l, hlm, hsl⟩ := List.mem_flatten.mp h2
            obtain ⟨it, hitm, rfl⟩ := List.mem_map.mp hlm
            exact Or.inr ⟨m, List.mem_cons_self _ _, it, hsl⟩
        · exact Or.inr ⟨mm, List.mem_cons_of_mem _ hmm, it, hit⟩

theorem mem_clusterShapes (cs : List Cluster) (c : Cluster) (sid : ShapeId)
    (hc : c ∈ cs) (hsid : sid ∈ c.shapeIds) : sid ∈ clusterShapes cs := by
  unfold clusterShapes
  exact List.mem_flatten.mpr ⟨c.shapeIds, List.mem_map.mpr ⟨c, hc, rfl⟩, hsid⟩

theorem allFragsHidden_eq_not_any (l : List Frag) :
    allFragsHidden l = !(l.any fun f => !f.notLoaded && f.visible) := by
  induction l with
  | nil => rfl
  | cons f rest ih =>
    by_cases hf : (!f.notLoaded && f.visible) = true <;>
      simp [allFragsHidden, hf, ih]

/-- C9: `hasVisibleFragments` is true exactly when the element has at least
one fragment that is loaded (not skipped) and not hidden; an element with no
fragments yields false; and in a build with descendant expansion
(`searchAncestors`) every shape id placed in any cluster comes from a listed
model and passed the `hasVisibleFragments` filter — elements without visible
fragments are excluded from clusters. -/
theorem hasVisibleFragments_characterization (m : SceneModel) (dbId : JSVal) :
    (hasVisibleFragments m dbId = true ↔
      ∃ f ∈ m.frags dbId, f.notLoaded = false ∧ f.visible = true) ∧
    (m.frags dbId = [] → hasVisibleFragments m dbId = false) ∧
    (∀ (models : List SceneModel) (a : String) (ctx : ExtState)
        (cs : List Cluster) (ext2 : ExtState),
      buildClustersFromAttribute models a true ctx = (.resolved cs, ext2) →
      ∀ c ∈ cs, ∀ sid ∈ c.shapeIds, ∃ mm ∈ models,
        sid.modelId = mm.id ∧ hasVisibleFragments mm sid.dbId = true) := by
  refine ⟨?_, ?_, ?_⟩
  · rw [hasVisibleFragments, allFragsHidden_eq_not_any]
    simp [List.any_eq_true, Bool.not_eq_true']
  · intro h
    simp [hasVisibleFragments, h, allFragsHidden]
  · intro models a ctx cs ext2 h c hc sid hsid
    unfold buildClustersFromAttribute at h
    rcases buildLoop_resolved_shapes a true models ctx [] false cs ext2 h sid
        (mem_clusterShapes cs c sid hc hsid) with hl | ⟨mm, hmm, it, hit⟩
    · simp [accShapes] at hl
    · exact ⟨mm, hmm, freshShapes_modelId mm true it sid hit,
        freshShapes_visible mm it sid hit⟩

/-- Witness for C9: element 2 of `modelExpand` has a loaded, visible
fragment, so it counts as visible. -/
theorem hasVisibleFragments_characterization_witness :
    hasVisibleFragments modelExpand (JSVal.jnum 2) = true :=
  (hasVisibleFragments_characterization modelExpand (JSVal.jnum 2)).1.mpr
    ⟨⟨false, true⟩, by decide, rfl, rfl⟩

/-- C10: a resolved default layout was computed by the layout builder from a
cluster list in which every cluster name differs from 'Revit Topography',
'Revit Rooms' and 'Revit <Sketch>', and every shape id belongs to a listed
model that is 3D and has an instance tree — excluded clusters and
unsupported models contribute nothing. -/
theorem createDefaultLayout_excludes (α : Type)
    (createClusterSetLayout : List Cluster → List SceneModel → Bool → α)
    (models : List SceneModel) (align : Bool) (a : String) (sa : Bool)
    (ctx : ExtState) (L : α) (ext2 : ExtState)
    (h : createDefaultLayout createClusterSetLayout models align a sa ctx =
      (.resolved L, ext2)) :
    ∃ cs : List Cluster,
      L = createClusterSetLayout cs (models.filter modelSupported) align ∧
      (∀ c ∈ cs, clusterNameOk c.name = true) ∧
      (∀ c ∈ cs, ∀ sid ∈ c.shapeIds, ∃ mm ∈ models,
        modelSupported mm = true ∧ sid.modelId = mm.id) := by
  unfold createDefaultLayout at h
  split at h
  next cs0 ext1 heq =>
    simp only [Prod.mk.injEq, PResult.resolved.injEq] at h
    obtain ⟨hL, hext⟩ := h
    refine ⟨cs0.filter (fun c => clusterNameOk c.name), hL.symm, ?_, ?_⟩
    · intro c hc
      exact (List.mem_filter.mp hc).2
    · intro c hc sid hsid
      have hc0 : c ∈ cs0 := (List.mem_filter.mp hc).1
      unfold buildClustersFromAttribute at heq
      rcases buildLoop_resolved_shapes a sa (models.filter modelSupported) ctx []
          false cs0 ext1 heq sid (mem_clusterShapes cs0 c sid hc0 hsid) with
        hl | ⟨mm, hmm, it, hit⟩
      · simp [accShapes] at hl
      · have hmf := List.mem_filter.mp hmm
        exact ⟨mm, hmf.1, hmf.2, freshShapes_modelId mm sa it sid hit⟩
  next e ext1 heq => simp at h
  next ext1 heq => simp at h

/-- Witness for C10: the default layout over `modelExpand` is built from the
single cluster "Walls", which survives the name filter and draws only on the
supported model. -/
theorem createDefaultLayout_excludes_witness :
    ∃ cs : List Cluster,
      passBuilder [⟨JSVal.jstr "Walls", [⟨4, JSVal.jnum 2⟩]⟩]
          ([modelExpand].filter modelSupported) true =
        passBuilder cs ([modelExpand].filter modelSupported) true ∧
      (∀ c ∈ cs, clusterNameOk c.name = true) ∧
      (∀ c ∈ cs, ∀ sid ∈ c.shapeIds, ∃ mm ∈ [modelExpand],
        modelSupported mm = true ∧ sid.modelId = mm.id) :=
  createDefaultLayout_excludes (List Cluster) passBuilder [modelExpand] true
    "Category" true ctx0
    (passBuilder [⟨JSVal.jstr "Walls", [⟨4, JSVal.jnum 2⟩]⟩]
      ([modelExpand].filter modelSupported) true)
    ⟨some [JSVal.jnum 1]⟩ (by decide)

/-- A build whose remaining models contain a failing attribute query (or
that already has a pending promise) never resolves. -/
theorem buildLoop_attrFail_not_resolved (a : String) (sa : Bool) :
    ∀ (models : List SceneModel) (ext : ExtState) (acc : List (String × Cluster))
      (pend : Bool),
      (pend = true ∨ ∃ m ∈ models, m.attrFail a = true) →
      ∀ (cs : List Cluster) (ext2 : ExtState),
        buildLoop a sa models ext acc pend ≠ (.resolved cs, ext2) := by
  intro models
  induction models with
  | nil =>
    intro ext acc pend hp cs ext2
    rcases hp with hp | ⟨m, hm, -⟩
    · subst hp; simp [buildLoop]
    · simp at hm
  | cons m rest ih =>
    intro ext acc pend hp cs ext2
    rw [buildLoop]
    split
    next e ext1 heq => simp
    next dbIds ext1 heq =>
      by_cases hb : m.attrFail a
      · rw [if_pos hb]
        exact ih ext1 acc true (Or.inl rfl) cs ext2
      · rw [if_neg hb]
        apply ih
        rcases hp with hp | ⟨mm, hmm, hf⟩
        · exact Or.inl hp
        · rcases List.mem_cons.mp hmm with rfl | hmm2
          · exact absurd hf hb
          · exact Or.inr ⟨mm, hmm2, hf⟩

/-- C2 (amended): a failing batched property query never yields partial
clusters, but only leaf-resolution query failures reject the build promise —
a rejecting first-model leaf resolution rejects the whole build with that
error, while a failing per-model attribute query (whose promise executor
installs no error callback) leaves the build pending forever instead of
rejecting it; in both cases the build never resolves. -/
theorem build_rejects_or_hangs_on_query_failure :
    (∀ (m : SceneModel) (rest : List SceneModel) (a : String) (sa : Bool)
        (ctx : ExtState) (e : QErr) (ext1 : ExtState),
      findActualLeafNodes ctx m true true = (.error e, ext1) →
      buildClustersFromAttribute (m :: rest) a sa ctx = (.rejected e, ext1)) ∧
    (∀ (models : List SceneModel) (a : String) (sa : Bool) (ctx : ExtState),
      (∃ m ∈ models, m.attrFail a = true) →
      (buildClustersFromAttribute models a sa ctx).1 = .pending ∨
        ∃ e, (buildClustersFromAttribute models a sa ctx).1 = .rejected e) := by
  constructor
  · intro m rest a sa ctx e ext1 h
    unfold buildClustersFromAttribute
    rw [buildLoop, h]
  · intro models a sa ctx hex
    have hne := buildLoop_attrFail_not_resolved a sa models ctx [] false (Or.inr hex)
    rcases hres : buildClustersFromAttribute models a sa ctx with ⟨r, ext2⟩
    cases r with
    | resolved cs =>
      exfalso
      apply hne cs ext2
      unfold buildClustersFromAttribute at hres
      exact hres
    | rejected e => exact Or.inr ⟨e, rfl⟩
    | pending => exact Or.inl rfl

/-- Witness for C2's amended statement: a model whose leaf-resolution bulk
query rejects makes the whole build reject with that error. -/
theorem build_rejects_or_hangs_on_query_failure_witness :
    buildClustersFromAttribute [modelLeafFail] "Category" false ctx0 =
      (.rejected .queryError, ctx0) :=
  build_rejects_or_hangs_on_query_failure.1 modelLeafFail [] "Category" false
    ctx0 .queryError ctx0 (by decide)

/-- Counterexample for C2: with a failing attribute query the build promise
is left pending forever — it does not reject. -/
theorem build_attr_failure_hangs_cex :
    buildClustersFromAttribute [modelAttrFail] "Category" false ctx0 =
      (.pending, ⟨some [JSVal.jnum 1]⟩) ∧
    (PResult.pending : PResult (List Cluster)) ≠ .rejected .queryError ∧
    (PResult.pending : PResult (List Cluster)) ≠ .rejected .typeError :=
  ⟨by decide, by decide, by decide⟩

/-- A successful single-model build step: the clusters are exactly the fold
of the model's result items over an empty `clustersByName`. -/
theorem buildLoop_single (m : SceneModel) (a : String) (sa : Bool)
    (ctx : ExtState) (dbIds : List JSVal) (ext1 : ExtState)
    (hleaf : findActualLeafNodes ctx m true true = (.ok dbIds, ext1))
    (hfail : m.attrFail a = false) :
    buildClustersFromAttribute [m] a sa ctx =
      (.resolved
        (((bulkItems m a dbIds).foldl (addToClusters m sa) []).map Prod.snd),
        ext1) := by
  simp [buildClustersFromAttribute, buildLoop, hleaf, hfail]

theorem flatten_freshShapes_false (m : SceneModel) (items : List BulkItem) :
    (items.map (freshShapes m false)).flatten =
      items.map fun it => ShapeId.mk m.id it.dbId := by
  induction items with
  | nil => rfl
  | cons it rest ih => simp [freshShapes, ih]

theorem bulkItems_mem (m : SceneModel) (a : String) (dbIds : List JSVal)
    (it : BulkItem) (h : it ∈ bulkItems m a dbIds) :
    it.dbId ∈ dbIds ∧ m.attrOf a it.dbId = some it.catValue := by
  unfold bulkItems at h
  obtain ⟨d, hd, hmap⟩ := List.mem_filterMap.mp h
  cases hv : m.attrOf a d with
  | none => rw [hv] at hmap; simp at hmap
  | some v =>
    rw [hv] at hmap
    simp at hmap
    subst hmap
    exact ⟨hd, hv⟩

/-- C4 (amended): an element of the resolved leaf set that lacks the
requested attribute never fails the build — the build still resolves — but
no "uncategorized" cluster is created for it: with descendant expansion off,
every shape id placed in any cluster stems from a resolved element that does
carry the attribute, so attribute-less elements are silently omitted. -/
theorem missing_attribute_element_skipped (m : SceneModel) (ctx : ExtState)
    (a : String) (sa : Bool) (dbIds : List JSVal) (ext1 : ExtState)
    (hleaf : findActualLeafNodes ctx m true true = (.ok dbIds, ext1))
    (hfail : m.attrFail a = false) :
    ∃ cs : List Cluster,
      buildClustersFromAttribute [m] a sa ctx = (.resolved cs, ext1) ∧
      (sa = false → ∀ c ∈ cs, ∀ sid ∈ c.shapeIds,
        ∃ d ∈ dbIds, sid = ⟨m.id, d⟩ ∧ (m.attrOf a d).isSome) := by
  refine ⟨_, buildLoop_single m a sa ctx dbIds ext1 hleaf hfail, ?_⟩
  intro hsa c hc sid hsid
  subst hsa
  have hmem := mem_clusterShapes _ c sid hc hsid
  rw [clusterShapes_map_snd] at hmem
  have hperm := accShapes_foldl_perm m false (bulkItems m a dbIds) []
  have h2 := hperm.mem_iff.mp hmem
  rw [accShapes_nil, List.nil_append, flatten_freshShapes_false] at h2
  obtain ⟨it, hitm, rfl⟩ := List.mem_map.mp h2
  obtain ⟨hd, hattr⟩ := bulkItems_mem m a dbIds it hitm
  exact ⟨it.dbId, hd, rfl, by rw [hattr]; rfl⟩

/-- Witness for C4's amended statement: in `modelHalfAttr`, element 2 lacks
the attribute; the build still resolves and 2 appears in no cluster. -/
theorem missing_attribute_element_skipped_witness :
    ∃ cs : List Cluster,
      buildClustersFromAttribute [modelHalfAttr] "Category" false ctx0 =
        (.resolved cs, ⟨some [JSVal.jnum 1, JSVal.jnum 2]⟩) ∧
      (false = false → ∀ c ∈ cs, ∀ sid ∈ c.shapeIds,
        ∃ d ∈ [JSVal.jnum 1, JSVal.jnum 2], sid = ⟨modelHalfAttr.id, d⟩ ∧
          (modelHalfAttr.attrOf "Category" d).isSome) :=
  missing_attribute_element_skipped modelHalfAttr ctx0 "Category" false
    [JSVal.jnum 1, JSVal.jnum 2] ⟨some [JSVal.jnum 1, JSVal.jnum 2]⟩
    (by decide) (by decide)

/-- Counterexample for C4: element 2 of `modelHalfAttr` lacks the attribute;
the completed build holds a single "Doors" cluster — no "uncategorized"
cluster exists and element 2 appears in no cluster at all. -/
theorem missing_attribute_no_uncategorized_cex :
    buildClustersFromAttribute [modelHalfAttr] "Category" false ctx0 =
      (.resolved [⟨JSVal.jstr "Doors", [⟨5, JSVal.jnum 1⟩]⟩],
        ⟨some [JSVal.jnum 1, JSVal.jnum 2]⟩) ∧
    (⟨5, JSVal.jnum 2⟩ : ShapeId) ∉
      clusterShapes [⟨JSVal.jstr "Doors", [⟨5, JSVal.jnum 1⟩]⟩] :=
  ⟨by decide, by decide⟩

theorem jsUniq_loop_nodup (l : List JSVal) :
    ∀ acc : List JSVal, acc.Nodup →
      (l.foldl (fun acc x => if acc.contains x then acc else acc ++ [x]) acc).Nodup := by
  induction l with
  | nil => intro acc h; exact h
  | cons x rest ih =>
    intro acc h
    rw [List.foldl_cons]
    by_cases hx : acc.contains x = true
    · rw [if_pos hx]
      exact ih acc h
    · rw [if_neg hx]
      apply ih
      have hxmem : x ∉ acc := by simpa using hx
      rw [List.nodup_append]
      refine ⟨h, List.nodup_singleton x, ?_⟩
      intro a ha hb
      rw [List.mem_singleton] at hb
      subst hb
      exact hxmem ha

theorem jsUniq_nodup (l : List JSVal) : (jsUniq l).Nodup :=
  jsUniq_loop_nodup l [] List.nodup_nil

theorem computeActualLeafNodes_nodup (m : SceneModel) (p : Bool)
    (l : List JSVal) (h : computeActualLeafNodes m p = .ok l) : l.Nodup := by
  unfold computeActualLeafNodes at h
  cases hb : bulkRecords m p (findLeafNodes m) with
  | error e => rw [hb] at h; simp at h
  | ok records =>
    rw [hb] at h
    dsimp only at h
    cases hm : records.mapM processRecord with
    | error e => rw [hm] at h; simp at h
    | ok pushed =>
      rw [hm] at h
      simp at h
      rw [← h]
      exact jsUniq_nodup pushed

/-- A successful resolution on a fresh cache returns a duplicate-free list
and stores it in the cache slot. -/
theorem findActualLeafNodes_fresh (ctx : ExtState) (m : SceneModel) (p : Bool)
    (l : List JSVal) (ext1 : ExtState) (hc : ctx.cachedDbIds = none)
    (h : findActualLeafNodes ctx m true p = (.ok l, ext1)) :
    l.Nodup ∧ ext1 = ⟨some l⟩ := by
  unfold findActualLeafNodes at h
  rw [hc] at h
  dsimp only at h
  cases hcomp : computeActualLeafNodes m p with
  | error e => rw [hcomp] at h; simp at h
  | ok dbIds =>
    rw [hcomp] at h
    simp at h
    obtain ⟨h1, h2⟩ := h
    subst h1
    exact ⟨computeActualLeafNodes_nodup m p _ hcomp, h2.symm⟩

theorem count_map_mk (mId : Int) (l : List JSVal) (d : JSVal) :
    ((l.map fun x => ShapeId.mk mId x).count (ShapeId.mk mId d)) = l.count d := by
  induction l with
  | nil => rfl
  | cons x rest ih => simp [List.count_cons, ih, ShapeId.mk.injEq]

theorem count_map_mk_ne (mId mId2 : Int) (hne : mId2 ≠ mId) (l : List JSVal)
    (d : JSVal) :
    ((l.map fun x => ShapeId.mk mId x).count (ShapeId.mk mId2 d)) = 0 := by
  rw [List.count_eq_zero]
  intro hmem
  obtain ⟨x, hx, heq⟩ := List.mem_map.mp hmem
  injection heq with h1 h2
  exact hne h1.symm

theorem bulkItems_total (m : SceneModel) (a : String) :
    ∀ dbIds : List JSVal, (∀ d ∈ dbIds, (m.attrOf a d).isSome) →
      (bulkItems m a dbIds).map BulkItem.dbId = dbIds := by
  intro dbIds
  induction dbIds with
  | nil => intro _; rfl
  | cons d rest ih =>
    intro hattr
    have hd := hattr d (List.mem_cons_self d rest)
    cases hv : m.attrOf a d with
    | none => rw [hv] at hd; simp at hd
    | some v =>
      have htail := ih fun x hx => hattr x (List.mem_cons_of_mem d hx)
      unfold bulkItems at htail ⊢
      simp [List.filterMap_cons, hv, htail]

/-- C3 (amended): a completed single-source build with descendant expansion
off, a fresh cache and every resolved element carrying the attribute is an
exact partition of the leaf-resolved set: each ShapeIdentity over a resolved
element occurs exactly once across all clusters, and nothing else occurs. -/
theorem clusters_partition_leaf_set (m : SceneModel) (ctx : ExtState)
    (a : String) (dbIds : List JSVal) (ext1 : ExtState)
    (hfresh : ctx.cachedDbIds = none)
    (hleaf : findActualLeafNodes ctx m true true = (.ok dbIds, ext1))
    (hfail : m.attrFail a = false)
    (hattr : ∀ d ∈ dbIds, (m.attrOf a d).isSome) :
    ∃ cs : List Cluster,
      buildClustersFromAttribute [m] a false ctx = (.resolved cs, ext1) ∧
      ∀ sid : ShapeId, (clusterShapes cs).count sid =
        if sid.modelId = m.id ∧ sid.dbId ∈ dbIds then 1 else 0 := by
  obtain ⟨hnd, -⟩ := findActualLeafNodes_fresh ctx m true dbIds ext1 hfresh hleaf
  refine ⟨_, buildLoop_single m a false ctx dbIds ext1 hleaf hfail, ?_⟩
  intro sid
  rw [clusterShapes_map_snd]
  have hperm := accShapes_foldl_perm m false (bulkItems m a dbIds) []
  rw [hperm.count_eq, accShapes_nil, List.nil_append, flatten_freshShapes_false]
  have hmap : (bulkItems m a dbIds).map (fun it => ShapeId.mk m.id it.dbId) =
      dbIds.map (fun d => ShapeId.mk m.id d) := by
    rw [show (fun it => ShapeId.mk m.id it.dbId) =
        (fun d => ShapeId.mk m.id d) ∘ BulkItem.dbId from rfl,
      ← List.map_map, bulkItems_total m a dbIds hattr]
  rw [hmap]
  obtain ⟨mid, d⟩ := sid
  by_cases hm : mid = m.id
  · subst hm
    rw [count_map_mk]
    by_cases hd : d ∈ dbIds
    · rw [List.count_eq_one_of_mem hnd hd]
      simp [hd]
    · rw [List.count_eq_zero_of_not_mem hd]
      simp [hd]
  · rw [count_map_mk_ne m.id mid hm]
    simp [hm]

/-- Witness for C3's amended statement: the two-element source resolves to
leaves `[1, 2]` and the completed build places each of them exactly once. -/
theorem clusters_partition_leaf_set_witness :
    ∃ cs : List Cluster,
      buildClustersFromAttribute [modelTwoOk] "Category" false ctx0 =
        (.resolved cs, ⟨some [JSVal.jnum 1, JSVal.jnum 2]⟩) ∧
      ∀ sid : ShapeId, (clusterShapes cs).count sid =
        if sid.modelId = modelTwoOk.id ∧
            sid.dbId ∈ [JSVal.jnum 1, JSVal.jnum 2] then 1 else 0 :=
  clusters_partition_leaf_set modelTwoOk ctx0 "Category"
    [JSVal.jnum 1, JSVal.jnum 2] ⟨some [JSVal.jnum 1, JSVal.jnum 2]⟩
    rfl (by decide) rfl (by decide)

/-- Counterexample for C3: with descendant expansion on (the repository's
default), the leaf resolver yields `{1}` for `modelExpand` but the union of
the produced clusters is `{2}` — the leaf-resolved element 1 appears in no
cluster, so the union does not equal the leaf-resolved set. -/
theorem clusters_not_leaf_set_cex :
    findActualLeafNodes ctx0 modelExpand true true =
      (.ok [JSVal.jnum 1], ⟨some [JSVal.jnum 1]⟩) ∧
    buildClustersFromAttribute [modelExpand] "Category" true ctx0 =
      (.resolved [⟨JSVal.jstr "Walls", [⟨4, JSVal.jnum 2⟩]⟩],
        ⟨some [JSVal.jnum 1]⟩) ∧
    (⟨4, JSVal.jnum 1⟩ : ShapeId) ∉
      clusterShapes [⟨JSVal.jstr "Walls", [⟨4, JSVal.jnum 2⟩]⟩] :=
  ⟨by decide, by decide, by decide⟩

end VClusters
